import Mathlib

/-
  Verification development for the MMCCCL inventory dashboard (src/app.py).

  The program is a Streamlit app over a pandas DataFrame.  We embed it as
  follows:
    - a row of the persisted spreadsheet is a `RawRow`; a spreadsheet is a
      `RawTable` carrying, besides its rows, flags saying which optional
      columns are present (pandas back-fills a whole missing column at once);
    - an in-memory row after `load_inventory` is a `Record`: the eight
      persisted fields plus the derived `Need Reorder` column that the code
      stores in the frame;
    - calendar dates are integers (days); a raw expiration cell is an
      `ExpCell` which may hold a date, be blank, or be unparseable junk
      (pd.to_datetime with errors="coerce" turns junk into NaT, i.e. none);
    - cells of a column that is present are modelled as well-typed values,
      matching the interchange format of the spec (section 6);
    - the storage file is an `Option RawTable` (none models FileNotFoundError);
    - the st.cache_data decoration on load_inventory is modelled by a
      `Session` holding the file contents and an optional cached snapshot;
      within the 600 s validity window the cache, once filled, is served and
      save_inventory never clears it.
-/

/-- Constant EXPIRY_ALERT_DAYS from src/app.py line 13. -/
def EXPIRY_ALERT_DAYS : Int := 30

/-- Constant DEFAULT_THRESHOLD from src/app.py line 14. -/
def DEFAULT_THRESHOLD : Int := 1

/-- Constant DEFAULT_ORDER_QTY from src/app.py line 15. -/
def DEFAULT_ORDER_QTY : Int := 1

/-- A raw expiration cell of the spreadsheet: a date, a blank, or junk that
pd.to_datetime(errors := coerce) cannot parse. -/
inductive ExpCell where
  | date (d : Int)
  | blank
  | junk
deriving DecidableEq, Repr

/-- One row of the persisted spreadsheet: the eight persisted columns.  The
derived Need Reorder column is never part of the file. -/
structure RawRow where
  category : String
  name : String
  expiration : ExpCell
  manufacturer : String
  sku : String
  quantityInStock : Int
  reorderThreshold : Int
  orderQuantity : Int
deriving DecidableEq, Repr

/-- The persisted spreadsheet: rows plus flags recording which of the
optional columns are present (a missing column is back-filled for every row
at once by load_inventory, src/app.py lines 31 to 35 and 39 to 42). -/
structure RawTable where
  rows : List RawRow
  hasQtyCol : Bool
  hasThresholdCol : Bool
  hasOrderQtyCol : Bool
  hasExpCol : Bool
deriving DecidableEq, Repr

/-- An in-memory inventory record after load_inventory: the eight persisted
fields plus the stored derived column Need Reorder. -/
structure Record where
  category : String
  name : String
  expiration : Option Int
  manufacturer : String
  sku : String
  quantityInStock : Int
  reorderThreshold : Int
  orderQuantity : Int
  needReorder : Bool
deriving DecidableEq, Repr

/-- pd.to_datetime with errors := coerce: a date parses to itself, a blank or
junk cell becomes NaT (none), src/app.py line 40. -/
def parseExp : ExpCell → Option Int
  | ExpCell.date d => some d
  | ExpCell.blank => none
  | ExpCell.junk => none

/-- Turn one raw row into an in-memory record, applying the column defaults
of src/app.py lines 31 to 35, the Need Reorder computation of line 37 and
the date parsing of lines 39 to 42.  The flags say which columns the source
table actually has. -/
def loadRow (hasQty hasTh hasOq hasExp : Bool) (r : RawRow) : Record :=
  let q := if hasQty then r.quantityInStock else 0
  let th := if hasTh then r.reorderThreshold else DEFAULT_THRESHOLD
  let oq := if hasOq then r.orderQuantity else DEFAULT_ORDER_QTY
  { category := r.category
    name := r.name
    expiration := if hasExp then parseExp r.expiration else none
    manufacturer := r.manufacturer
    sku := r.sku
    quantityInStock := q
    reorderThreshold := th
    orderQuantity := oq
    needReorder := decide (q ≤ th) }

/-- load_inventory, src/app.py lines 17 to 43.  The argument is the content
of Inventory.xlsx; none models FileNotFoundError, answered by the empty
DataFrame of lines 25 to 29 (here the empty list). -/
def load_inventory (src : Option RawTable) : List Record :=
  match src with
  | none => []
  | some rt =>
      rt.rows.map (loadRow rt.hasQtyCol rt.hasThresholdCol rt.hasOrderQtyCol rt.hasExpCol)

/-- Serialize one in-memory record back to a spreadsheet row.  The derived
needReorder field is not consulted: df.drop(columns := Need Reorder) at
src/app.py line 50 removes it before to_excel. -/
def saveRow (r : Record) : RawRow :=
  { category := r.category
    name := r.name
    expiration := match r.expiration with
      | some d => ExpCell.date d
      | none => ExpCell.blank
    manufacturer := r.manufacturer
    sku := r.sku
    quantityInStock := r.quantityInStock
    reorderThreshold := r.reorderThreshold
    orderQuantity := r.orderQuantity }

/-- save_inventory, src/app.py lines 45 to 51: drop the Need Reorder column
and write every persisted column in full. -/
def save_inventory (t : List Record) : RawTable :=
  { rows := t.map saveRow
    hasQtyCol := true
    hasThresholdCol := true
    hasOrderQtyCol := true
    hasExpCol := true }

/-- The consistency predicate of the derived column: every stored Need
Reorder flag agrees with quantity in stock versus reorder threshold. -/
def consistent (t : List Record) : Bool :=
  t.all fun r => r.needReorder == decide (r.quantityInStock ≤ r.reorderThreshold)

/-- Recompute the Need Reorder column for the whole frame,
src/app.py line 146. -/
def recomputeNeedReorder (t : List Record) : List Record :=
  t.map fun r => { r with needReorder := decide (r.quantityInStock ≤ r.reorderThreshold) }

/-- Increment the quantity in stock of the first row whose SKU matches,
src/app.py lines 120 to 122 (df.index[mask][0] picks the lowest index). -/
def bumpFirst (sku : String) (qty : Int) : List Record → List Record
  | [] => []
  | r :: rs =>
      if r.sku = sku then { r with quantityInStock := r.quantityInStock + qty } :: rs
      else r :: bumpFirst sku qty rs

/-- The details the new-item form of src/app.py lines 126 to 131 collects
when a SKU is not found.  The number inputs for threshold and order quantity
have min_value 1. -/
structure NewItem where
  category : String
  name : String
  expiration : Int
  manufacturer : String
  threshold : Int
  orderQty : Int
deriving DecidableEq, Repr

/-- The new row appended by src/app.py lines 133 to 143, Need Reorder
included exactly as line 142 computes it. -/
def mkNewRecord (sku : String) (qty : Int) (d : NewItem) : Record :=
  { category := d.category
    name := d.name
    expiration := some d.expiration
    manufacturer := d.manufacturer
    sku := sku
    quantityInStock := qty
    reorderThreshold := d.threshold
    orderQuantity := d.orderQty
    needReorder := decide (qty ≤ d.threshold) }

/-- Outcome reported by the Receive Shipment tab. -/
inductive Outcome where
  | errorEmptySku
  | updatedExisting
  | addedNewItem
  | infoAwaitDetails
deriving DecidableEq, Repr

/-- Result of one press of the Add to Inventory button: the outcome shown,
the in-memory table afterwards, and whether save_inventory was invoked. -/
structure ReceiveResult where
  outcome : Outcome
  table : List Record
  saved : Bool
deriving DecidableEq, Repr

/-- The Receive Shipment handler, src/app.py lines 116 to 147.  An empty SKU
is rejected by line 117 with no mutation and no save.  Otherwise, when the
SKU is found the first matching row is incremented (lines 120 to 122); when
it is not found, the handler appends the new row of lines 133 to 144 if the
details form was confirmed (details = some d) and merely shows an
informational message if not (details = none).  In every nonempty-SKU case,
lines 146 and 147 then recompute the Need Reorder column and save.  The
handler itself never inspects qty: the quantity widget of line 114 has
min_value 1, but no validation of qty appears in the handler code. -/
def receive (t : List Record) (sku : String) (qty : Int) (details : Option NewItem) :
    ReceiveResult :=
  if sku = "" then
    { outcome := Outcome.errorEmptySku, table := t, saved := false }
  else if t.any (fun r => r.sku == sku) then
    { outcome := Outcome.updatedExisting
      table := recomputeNeedReorder (bumpFirst sku qty t)
      saved := true }
  else
    match details with
    | some d =>
        { outcome := Outcome.addedNewItem
          table := recomputeNeedReorder (t ++ [mkNewRecord sku qty d])
          saved := true }
    | none =>
        { outcome := Outcome.infoAwaitDetails
          table := recomputeNeedReorder t
          saved := true }

/-- One interactive session: the contents of Inventory.xlsx and the snapshot
held by st.cache_data for load_inventory (src/app.py line 17).  The model
covers the 600 s validity window, during which a filled cache is served
instead of re-reading the file. -/
structure Session where
  file : Option RawTable
  cache : Option (List Record)
deriving DecidableEq, Repr

/-- A call of load_inventory inside the cache validity window: a filled
cache is returned as is; otherwise the file is read and the result cached. -/
def sessionLoad (s : Session) : List Record × Session :=
  match s.cache with
  | some t => (t, s)
  | none =>
      let t := load_inventory s.file
      (t, { s with cache := some t })

/-- A call of save_inventory: the file is overwritten with the serialized
table.  Nothing in src/app.py clears the load_inventory cache (no call of
load_inventory.clear or st.cache_data.clear), so the cached snapshot
survives the save. -/
def sessionSave (t : List Record) (s : Session) : Session :=
  { s with file := some (save_inventory t) }

/-- The filter block, src/app.py lines 70 to 79.  Lines 71 to 74 narrow by
the selected categories and manufacturers (no selection means no narrowing).
Line 76 then evaluates the expression
  filtered[filtered[Expiration Date]].between(start, end)
which indexes the DataFrame with the date column VALUES as column labels:
on a nonempty frame pandas raises KeyError (the dates are not column
labels), and on an empty frame the empty label list selects a DataFrame on
which .between raises AttributeError.  Either way the block raises instead
of producing a table. -/
def filteredView (t : List Record) (cats mans : List String) (startD endD : Int) :
    Except String (List Record) :=
  let f1 := if cats.isEmpty then t else t.filter fun r => cats.contains r.category
  let f2 := if mans.isEmpty then f1 else f1.filter fun r => mans.contains r.manufacturer
  if f2.isEmpty then
    Except.error "AttributeError: DataFrame object has no attribute between"
  else
    Except.error "KeyError: expiration dates are not column labels"

/-- Modelled from the spec: the filter view the spec describes, since the
code of lines 76 to 79 raises instead of filtering.  A record passes when
its category is among the selected categories (or none is selected), its
manufacturer is among the selected manufacturers (or none is selected), and
its expiration date lies within the selected window, bounds included; a
record without an expiration date never passes the window test. -/
def filteredSpec (t : List Record) (cats mans : List String) (startD endD : Int) :
    List Record :=
  let f1 := if cats.isEmpty then t else t.filter fun r => cats.contains r.category
  let f2 := if mans.isEmpty then f1 else f1.filter fun r => mans.contains r.manufacturer
  f2.filter fun r =>
    match r.expiration with
    | some d => decide (startD ≤ d) && decide (d ≤ endD)
    | none => false

/-- The comparison series <= cutoff of src/app.py line 89: pandas compares
each expiration cell with the cutoff, and a NaT cell compares false. -/
def expComparedLe (e : Option Int) (cutoff : Int) : Bool :=
  match e with
  | some d => decide (d ≤ cutoff)
  | none => false

/-- The expiring-soon count of src/app.py line 89: build the boolean series
comparing every expiration date with today + EXPIRY_ALERT_DAYS and sum it. -/
def expiring_soon (t : List Record) (today : Int) : Nat :=
  ((t.map fun r => r.expiration).map
    fun e => expComparedLe e (today + EXPIRY_ALERT_DAYS)).count true

/-- The code embedding lifted to a storage state with two locations.  The
code reads only the single constant path Inventory.xlsx (src/app.py
lines 12 and 23): any second location is ignored. -/
def loadTwoLoc (primary secondary : Option RawTable) : List Record :=
  load_inventory primary

/-- Modelled from the spec: a loader that reads the primary persisted
location, falls back to a secondary location when the primary is
unavailable, and returns the empty table when both are unavailable, applying
the same defaults and derived flag on whichever source it reads. -/
def loadSpecFallback (primary secondary : Option RawTable) : List Record :=
  match primary with
  | some rt => load_inventory (some rt)
  | none =>
      match secondary with
      | some rt => load_inventory (some rt)
      | none => []

/-
  Helper lemmas.
-/

theorem loadRow_needReorder (a b c d : Bool) (r : RawRow) :
    (loadRow a b c d r).needReorder =
      decide ((loadRow a b c d r).quantityInStock ≤ (loadRow a b c d r).reorderThreshold) := by
  simp [loadRow]

theorem consistent_iff (t : List Record) :
    consistent t = true ↔
      ∀ r ∈ t, r.needReorder = decide (r.quantityInStock ≤ r.reorderThreshold) := by
  simp [consistent, List.all_eq_true]

theorem consistent_load_inventory (src : Option RawTable) :
    consistent (load_inventory src) = true := by
  cases src with
  | none => rfl
  | some rt =>
      rw [consistent_iff]
      intro r hr
      simp only [load_inventory, List.mem_map] at hr
      obtain ⟨raw, _, hraw⟩ := hr
      rw [← hraw]
      exact loadRow_needReorder _ _ _ _ raw

theorem consistent_recomputeNeedReorder (t : List Record) :
    consistent (recomputeNeedReorder t) = true := by
  rw [consistent_iff]
  intro r hr
  simp only [recomputeNeedReorder, List.mem_map] at hr
  obtain ⟨x, _, hx⟩ := hr
  rw [← hx]

theorem recomputeNeedReorder_of_consistent (t : List Record) (h : consistent t = true) :
    recomputeNeedReorder t = t := by
  rw [consistent_iff] at h
  induction t with
  | nil => rfl
  | cons r rs ih =>
      have hr := h r (List.mem_cons_self r rs)
      have hrs : recomputeNeedReorder rs = rs :=
        ih fun x hx => h x (List.mem_cons_of_mem r hx)
      simp only [recomputeNeedReorder, List.map_cons] at hrs ⊢
      rw [← hr]
      simp [hrs]

theorem recomputeNeedReorder_append (t u : List Record) :
    recomputeNeedReorder (t ++ u) = recomputeNeedReorder t ++ recomputeNeedReorder u := by
  simp [recomputeNeedReorder]

/-- C1: immediately after load_inventory and immediately after any receive
operation with a nonempty SKU (the increment branch, the append branch and
the details-pending branch alike), every stored Need Reorder flag equals the
comparison of quantity in stock with the reorder threshold. -/
theorem c1_needReorder_consistent :
    (∀ src : Option RawTable, consistent (load_inventory src) = true) ∧
    (∀ (t : List Record) (sku : String) (qty : Int) (details : Option NewItem),
      sku ≠ "" → consistent ((receive t sku qty details).table) = true) := by
  constructor
  · exact consistent_load_inventory
  · intro t sku qty details hsku
    unfold receive
    rw [if_neg hsku]
    by_cases hmem : t.any (fun r => r.sku == sku)
    · rw [if_pos hmem]
      exact consistent_recomputeNeedReorder _
    · rw [if_neg hmem]
      cases details with
      | some d => exact consistent_recomputeNeedReorder _
      | none => exact consistent_recomputeNeedReorder _

/-- Concrete rows used by the witnesses and counterexamples. -/
def rowA : RawRow :=
  { category := "Reagent", name := "Buffer", expiration := ExpCell.date 120
    manufacturer := "Acme", sku := "A", quantityInStock := 5
    reorderThreshold := 2, orderQuantity := 4 }

def rtA : RawTable :=
  { rows := [rowA], hasQtyCol := true, hasThresholdCol := true
    hasOrderQtyCol := true, hasExpCol := true }

def recA : Record :=
  { category := "Reagent", name := "Buffer", expiration := some 120
    manufacturer := "Acme", sku := "A", quantityInStock := 5
    reorderThreshold := 2, orderQuantity := 4, needReorder := false }

/-- Witness for c1_needReorder_consistent at a concrete table and receive. -/
theorem c1_needReorder_consistent_witness :
    consistent (load_inventory (some rtA)) = true ∧
    consistent ((receive [recA] "A" 5 none).table) = true :=
  ⟨c1_needReorder_consistent.1 (some rtA),
   c1_needReorder_consistent.2 [recA] "A" 5 none (by decide)⟩

theorem bumpFirst_eq_of_first (sku : String) (qty : Int) (pre post : List Record)
    (r : Record) (hr : r.sku = sku) (hpre : ∀ p ∈ pre, p.sku ≠ sku) :
    bumpFirst sku qty (pre ++ r :: post) =
      pre ++ { r with quantityInStock := r.quantityInStock + qty } :: post := by
  induction pre with
  | nil => simp [bumpFirst, hr]
  | cons p ps ih =>
      have hp : p.sku ≠ sku := hpre p (List.mem_cons_self p ps)
      have ih2 := ih fun x hx => hpre x (List.mem_cons_of_mem p hx)
      simp only [List.cons_append, bumpFirst, if_neg hp, List.append_eq]
      rw [ih2]

theorem consistent_sub_append (a b : List Record) (h : consistent (a ++ b) = true) :
    consistent a = true ∧ consistent b = true := by
  rw [consistent_iff] at h
  constructor
  · rw [consistent_iff]
    intro x hx
    exact h x (List.mem_append_left b hx)
  · rw [consistent_iff]
    intro x hx
    exact h x (List.mem_append_right a hx)

theorem consistent_of_cons (r : Record) (l : List Record)
    (h : consistent (r :: l) = true) : consistent l = true := by
  rw [consistent_iff] at h ⊢
  intro x hx
  exact h x (List.mem_cons_of_mem r hx)

/-- Shared helper: the exact result of the Receive Shipment handler when the
SKU is found, the matched row being the first one carrying it, on a table
whose Need Reorder column is consistent (as every table the program holds
is, by c1).  Every row other than the matched one is returned unchanged;
the matched row changes only in quantity in stock and in the recomputed
Need Reorder flag. -/
theorem receive_found_eq (pre post : List Record) (r : Record) (sku : String)
    (qty : Int) (details : Option NewItem)
    (hsku : sku ≠ "") (hr : r.sku = sku) (hpre : ∀ p ∈ pre, p.sku ≠ sku)
    (hcons : consistent (pre ++ r :: post) = true) :
    receive (pre ++ r :: post) sku qty details =
      { outcome := Outcome.updatedExisting
        table := pre ++
          { r with quantityInStock := r.quantityInStock + qty
                   needReorder := decide (r.quantityInStock + qty ≤ r.reorderThreshold) } :: post
        saved := true } := by
  have hany : (pre ++ r :: post).any (fun x => x.sku == sku) = true := by
    rw [List.any_eq_true]
    refine ⟨r, ?_, ?_⟩
    · exact List.mem_append_right pre (List.mem_cons_self r post)
    · simp [hr]
  obtain ⟨hcpre, hcrpost⟩ := consistent_sub_append pre (r :: post) hcons
  have hcpost : consistent post = true := consistent_of_cons r post hcrpost
  unfold receive
  rw [if_neg hsku, if_pos hany]
  rw [bumpFirst_eq_of_first sku qty pre post r hr hpre]
  rw [recomputeNeedReorder_append]
  rw [recomputeNeedReorder_of_consistent pre hcpre]
  simp only [recomputeNeedReorder, List.map_cons]
  have hpost2 :
      (post.map fun x =>
        { x with needReorder := decide (x.quantityInStock ≤ x.reorderThreshold) }) = post :=
    recomputeNeedReorder_of_consistent post hcpost
  rw [hpost2]

/-- A consistent record at its reorder point: quantity 0, threshold 1, so
the stored Need Reorder flag is true. -/
def recB0 : Record :=
  { category := "Media", name := "Agar", expiration := some 200
    manufacturer := "BioCo", sku := "B", quantityInStock := 0
    reorderThreshold := 1, orderQuantity := 3, needReorder := true }

/-- Counterexample to C2 as stated: receiving 5 units of SKU B against the
single consistent record recB0 changes a field of the matched record other
than quantity in stock, namely the stored Need Reorder flag, which flips
from true to false when the restock crosses the threshold. -/
theorem c2_counterexample :
    recB0.needReorder = true ∧
    ((receive [recB0] "B" 5 none).table.map fun r => r.needReorder) = [false] ∧
    ((receive [recB0] "B" 5 none).table.map fun r => r.quantityInStock) = [5] := by
  decide

/-- C2 amended: on a table with a consistent Need Reorder column (as every
table the program holds is), receiving qty units of an existing SKU yields
exactly: the first matched record with its quantity in stock increased by
qty and its Need Reorder flag recomputed, every other persisted field of the
matched record unchanged, and every other record returned entirely
unchanged. -/
theorem c2_receive_existing_frame (pre post : List Record) (r : Record) (sku : String)
    (qty : Int) (details : Option NewItem)
    (hsku : sku ≠ "") (hr : r.sku = sku) (hpre : ∀ p ∈ pre, p.sku ≠ sku)
    (hcons : consistent (pre ++ r :: post) = true) :
    receive (pre ++ r :: post) sku qty details =
      { outcome := Outcome.updatedExisting
        table := pre ++
          { r with quantityInStock := r.quantityInStock + qty
                   needReorder := decide (r.quantityInStock + qty ≤ r.reorderThreshold) } :: post
        saved := true } :=
  receive_found_eq pre post r sku qty details hsku hr hpre hcons

/-- Witness for c2_receive_existing_frame: receiving 7 units of SKU B on the
two-record table [recA, recB0]. -/
theorem c2_receive_existing_frame_witness :
    receive [recA, recB0] "B" 7 none =
      { outcome := Outcome.updatedExisting
        table := [recA, { recB0 with quantityInStock := 7, needReorder := false }]
        saved := true } := by
  have h := c2_receive_existing_frame [recA] [] recB0 "B" 7 none
    (by decide) (by decide) (by decide) (by decide)
  simp only [List.cons_append, List.nil_append] at h
  rw [h]
  decide

/-- C3: the load cache is not invalidated by a successful save.  Concrete
session: the file holds rtA; the first load caches its table; a receive of
5 units of SKU A mutates the table and saves it; the next load inside the
cache validity window returns the cached pre-save snapshot, which differs
from the table the save persisted.  The read path therefore does not
observe the completed write, contradicting the stated requirement; the spec
itself flags this caching as a correctness risk, so the code, not the
claim, is wrong. -/
theorem c3_stale_read_after_save :
    (sessionLoad (sessionSave
        ((receive (sessionLoad { file := some rtA, cache := none }).1 "A" 5 none).table)
        (sessionLoad { file := some rtA, cache := none }).2)).1 =
      (sessionLoad { file := some rtA, cache := none }).1 ∧
    (sessionLoad (sessionSave
        ((receive (sessionLoad { file := some rtA, cache := none }).1 "A" 5 none).table)
        (sessionLoad { file := some rtA, cache := none }).2)).1 ≠
      load_inventory (sessionSave
        ((receive (sessionLoad { file := some rtA, cache := none }).1 "A" 5 none).table)
        (sessionLoad { file := some rtA, cache := none }).2).file := by
  decide

/-- Counterexample to C4 as stated: with the primary location unavailable
and a secondary location holding rtA, the code returns the empty table
without attempting any secondary read, while the fallback loader the spec
describes would return the record of rtA.  src/app.py reads the single
constant path Inventory.xlsx and has no secondary location. -/
theorem c4_counterexample :
    loadTwoLoc none (some rtA) = [] ∧
    loadSpecFallback none (some rtA) = [recA] ∧
    loadTwoLoc none (some rtA) ≠ loadSpecFallback none (some rtA) := by
  decide

/-- C4 amended: load_inventory never fails; when the primary (and only)
location is unavailable it returns the empty table; a missing Quantity in
Stock, Reorder Threshold or Order Quantity column is back-filled with its
default (0, 1, 1) for every record, and no record is dropped. -/
theorem c4_load_defaults :
    load_inventory none = [] ∧
    (∀ rt : RawTable, (load_inventory (some rt)).length = rt.rows.length) ∧
    (∀ rt : RawTable, rt.hasQtyCol = false →
      ∀ r ∈ load_inventory (some rt), r.quantityInStock = 0) ∧
    (∀ rt : RawTable, rt.hasThresholdCol = false →
      ∀ r ∈ load_inventory (some rt), r.reorderThreshold = DEFAULT_THRESHOLD) ∧
    (∀ rt : RawTable, rt.hasOrderQtyCol = false →
      ∀ r ∈ load_inventory (some rt), r.orderQuantity = DEFAULT_ORDER_QTY) := by
  refine ⟨rfl, ?_, ?_, ?_, ?_⟩
  · intro rt
    simp [load_inventory]
  · intro rt hq r hr
    simp only [load_inventory, List.mem_map] at hr
    obtain ⟨raw, _, hraw⟩ := hr
    rw [← hraw]
    simp [loadRow, hq]
  · intro rt hth r hr
    simp only [load_inventory, List.mem_map] at hr
    obtain ⟨raw, _, hraw⟩ := hr
    rw [← hraw]
    simp [loadRow, hth]
  · intro rt hoq r hr
    simp only [load_inventory, List.mem_map] at hr
    obtain ⟨raw, _, hraw⟩ := hr
    rw [← hraw]
    simp [loadRow, hoq]

/-- A source table whose three numeric columns are all absent. -/
def rtNoCols : RawTable :=
  { rows := [rowA], hasQtyCol := false, hasThresholdCol := false
    hasOrderQtyCol := false, hasExpCol := true }

/-- Witness for c4_load_defaults on rtNoCols: the single loaded record got
quantity 0, threshold DEFAULT_THRESHOLD and order quantity
DEFAULT_ORDER_QTY. -/
theorem c4_load_defaults_witness :
    rtNoCols.hasQtyCol = false ∧
    loadRow false false false true rowA ∈ load_inventory (some rtNoCols) ∧
    (loadRow false false false true rowA).quantityInStock = 0 ∧
    (loadRow false false false true rowA).reorderThreshold = DEFAULT_THRESHOLD ∧
    (loadRow false false false true rowA).orderQuantity = DEFAULT_ORDER_QTY :=
  ⟨rfl, by decide,
   c4_load_defaults.2.2.1 rtNoCols rfl _ (by decide),
   c4_load_defaults.2.2.2.1 rtNoCols rfl _ (by decide),
   c4_load_defaults.2.2.2.2 rtNoCols rfl _ (by decide)⟩

/-- A consistent record with ample stock, used to exercise the handler on a
non-positive quantity. -/
def recC : Record :=
  { category := "Consumable", name := "Tips", expiration := none
    manufacturer := "LabCo", sku := "C", quantityInStock := 10
    reorderThreshold := 1, orderQuantity := 2, needReorder := false }

/-- Counterexample to C5 as stated: the handler applied to quantity -3 for
the existing SKU C mutates the table (10 becomes 7) and invokes save, so a
non-positive quantity is not rejected by any validation in the handler; the
quantity widget of line 114 (min_value 1) is what keeps such values out. -/
theorem c5_counterexample :
    ((receive [recC] "C" (-3) none).table.map fun r => r.quantityInStock) = [7] ∧
    (receive [recC] "C" (-3) none).saved = true ∧
    (receive [recC] "C" (-3) none).table ≠ [recC] := by
  decide

/-- C5 amended: an empty SKU is rejected with a validation error and
performs no mutation (the table is returned unchanged and save is not
invoked); non-positive quantities are not rejected by the handler but are
prevented from being submitted by the quantity input control, whose minimum
is 1. -/
theorem c5_empty_sku_rejected (t : List Record) (qty : Int) (details : Option NewItem) :
    receive t "" qty details =
      { outcome := Outcome.errorEmptySku, table := t, saved := false } := by
  simp [receive]

/-- C7: when the SKU is not in the table and the details form is confirmed,
the handler appends exactly one new record built from the given SKU and
quantity and the collected details, recomputes the Need Reorder column and
saves the full table.  On a consistent table the result is exactly the old
table with the one new record appended, the new record carrying the given
identifier as its SKU, the given quantity as its quantity in stock, the
collected category, name, expiration date, manufacturer, threshold and
order quantity, and the recomputed reorder flag. -/
theorem c7_receive_new_item (t : List Record) (sku : String) (qty : Int) (d : NewItem)
    (hsku : sku ≠ "") (hnot : t.any (fun r => r.sku == sku) = false)
    (hcons : consistent t = true) :
    receive t sku qty (some d) =
      { outcome := Outcome.addedNewItem
        table := t ++ [mkNewRecord sku qty d]
        saved := true } ∧
    (t ++ [mkNewRecord sku qty d]).length = t.length + 1 ∧
    (mkNewRecord sku qty d).sku = sku ∧
    (mkNewRecord sku qty d).quantityInStock = qty ∧
    (mkNewRecord sku qty d).category = d.category ∧
    (mkNewRecord sku qty d).name = d.name ∧
    (mkNewRecord sku qty d).expiration = some d.expiration ∧
    (mkNewRecord sku qty d).manufacturer = d.manufacturer ∧
    (mkNewRecord sku qty d).reorderThreshold = d.threshold ∧
    (mkNewRecord sku qty d).orderQuantity = d.orderQty ∧
    (mkNewRecord sku qty d).needReorder =
      decide ((mkNewRecord sku qty d).quantityInStock ≤ (mkNewRecord sku qty d).reorderThreshold) := by
  refine ⟨?_, by simp, rfl, rfl, rfl, rfl, rfl, rfl, rfl, rfl, rfl⟩
  unfold receive
  rw [if_neg hsku]
  rw [if_neg (by simp [hnot])]
  show ({ outcome := Outcome.addedNewItem
          table := recomputeNeedReorder (t ++ [mkNewRecord sku qty d])
          saved := true } : ReceiveResult) = _
  rw [recomputeNeedReorder_append, recomputeNeedReorder_of_consistent t hcons]
  have hnew : recomputeNeedReorder [mkNewRecord sku qty d] = [mkNewRecord sku qty d] := by
    simp [recomputeNeedReorder, mkNewRecord]
  rw [hnew]

/-- Details used by the c7 witness. -/
def newD : NewItem :=
  { category := "Kit", name := "Primer", expiration := 300
    manufacturer := "GenCo", threshold := 1, orderQty := 6 }

/-- Witness for c7_receive_new_item: adding unknown SKU N with 2 units to
the one-record table [recA]. -/
theorem c7_receive_new_item_witness :
    receive [recA] "N" 2 (some newD) =
      { outcome := Outcome.addedNewItem
        table := [recA] ++ [mkNewRecord "N" 2 newD]
        saved := true } :=
  (c7_receive_new_item [recA] "N" 2 newD (by decide) (by decide) (by decide)).1

/-- A second consistent record with SKU B, a duplicate of the SKU of
recB0. -/
def recB1 : Record :=
  { category := "Media", name := "Broth", expiration := some 220
    manufacturer := "BioCo", sku := "B", quantityInStock := 4
    reorderThreshold := 1, orderQuantity := 3, needReorder := false }

/-- C9: when several records share the searched SKU, only the first one (the
lowest index) is incremented; the whole tail after it, duplicates included,
is returned exactly unchanged, and every duplicate after the first is still
present unchanged in the result. -/
theorem c9_receive_first_duplicate (pre post : List Record) (r r2 : Record) (sku : String)
    (qty : Int) (details : Option NewItem)
    (hsku : sku ≠ "") (hr : r.sku = sku) (hpre : ∀ p ∈ pre, p.sku ≠ sku)
    (hr2 : r2 ∈ post) (hr2sku : r2.sku = sku)
    (hcons : consistent (pre ++ r :: post) = true) :
    (receive (pre ++ r :: post) sku qty details).table =
      pre ++
        { r with quantityInStock := r.quantityInStock + qty
                 needReorder := decide (r.quantityInStock + qty ≤ r.reorderThreshold) } :: post ∧
    r2 ∈ (receive (pre ++ r :: post) sku qty details).table ∧
    r2.sku = sku := by
  have h := receive_found_eq pre post r sku qty details hsku hr hpre hcons
  refine ⟨by rw [h], ?_, hr2sku⟩
  rw [h]
  exact List.mem_append_right pre (List.mem_cons_of_mem _ hr2)

/-- Witness for c9_receive_first_duplicate: two records share SKU B; only
the first one is incremented. -/
theorem c9_receive_first_duplicate_witness :
    (receive [recB0, recB1] "B" 5 none).table =
      [{ recB0 with quantityInStock := 5, needReorder := false }, recB1] := by
  have h := c9_receive_first_duplicate [] [recB1] recB0 recB1 "B" 5 none
    (by decide) (by decide) (by decide) (by decide) (by decide) (by decide)
  have h1 := h.1
  simp only [List.nil_append] at h1
  rw [h1]
  decide

theorem loadRow_saveRow (r : Record) :
    loadRow true true true true (saveRow r) =
      { r with needReorder := decide (r.quantityInStock ≤ r.reorderThreshold) } := by
  rcases r with ⟨c, n, e, m, s, q, th, oq, nr⟩
  cases e <;> simp [loadRow, saveRow, parseExp]

theorem save_load_of_consistent (t : List Record) (h : consistent t = true) :
    load_inventory (some (save_inventory t)) = t := by
  rw [consistent_iff] at h
  simp only [load_inventory, save_inventory, List.map_map]
  have hcong : ∀ r ∈ t, loadRow true true true true (saveRow r) = r := by
    intro r hr
    rw [loadRow_saveRow r, ← h r hr]
  calc t.map (fun r => loadRow true true true true (saveRow r)) = t.map id :=
        List.map_congr_left hcong
    _ = t := List.map_id t

/-- Overwrite every stored Need Reorder flag with the constant b. -/
def setNeedReorder (b : Bool) (t : List Record) : List Record :=
  t.map fun r => { r with needReorder := b }

/-- C6: the persisted output of save_inventory does not depend on the
derived Need Reorder column (the column is dropped before writing, so it is
never persisted), and the round trip of saving a just-loaded table and
loading it again returns a table equal to the originally loaded one in
every field. -/
theorem c6_save_strips_and_roundtrip :
    (∀ (t : List Record) (b : Bool), save_inventory (setNeedReorder b t) = save_inventory t) ∧
    (∀ src : Option RawTable,
      load_inventory (some (save_inventory (load_inventory src))) = load_inventory src) := by
  constructor
  · intro t b
    simp [save_inventory, setNeedReorder, List.map_map, saveRow]
  · intro src
    exact save_load_of_consistent (load_inventory src) (consistent_load_inventory src)

/-- C8: the filter block raises instead of returning the filtered records.
Concrete failing input: the one-record table [recA], no category or
manufacturer selected, expiration window from day 0 to day 365.  The record
expires on day 120, inside the window, so the filter view the spec
describes returns it; the code instead indexes the DataFrame with the date
column values at src/app.py line 76 and raises. -/
theorem c8_filter_raises :
    filteredView [recA] [] [] 0 365 =
      Except.error "KeyError: expiration dates are not column labels" ∧
    filteredSpec [recA] [] [] 0 365 = [recA] ∧
    (∀ t : List Record, ∀ cats mans : List String, ∀ startD endD : Int,
      ∀ res : List Record, filteredView t cats mans startD endD ≠ Except.ok res) := by
  refine ⟨by rfl, by decide, ?_⟩
  intro t cats mans startD endD res
  unfold filteredView
  by_cases h : ((if mans.isEmpty then
      (if cats.isEmpty then t else t.filter fun r => cats.contains r.category)
    else
      (if cats.isEmpty then t else t.filter fun r => cats.contains r.category).filter
        fun r => mans.contains r.manufacturer)).isEmpty
  · simp only [h, if_true]
    intro hcontra
    exact Except.noConfusion hcontra
  · simp only [h, if_false]
    intro hcontra
    exact Except.noConfusion hcontra

theorem count_true_map_eq_filter_length (cutoff : Int) (t : List Record) :
    ((t.map fun r => r.expiration).map fun e => expComparedLe e cutoff).count true =
      (t.filter fun r => expComparedLe r.expiration cutoff).length := by
  induction t with
  | nil => rfl
  | cons r rs ih =>
      simp only [List.map_cons, List.count_cons, List.filter_cons, List.map_map] at ih ⊢
      cases h : expComparedLe r.expiration cutoff with
      | false => simp [h, ih]
      | true => simp [h, ih]

/-- C10: the expiring-soon count of src/app.py line 89 equals the number of
records whose expiration date is at most today plus the 30 day horizon;
a record whose date is already in the past is counted (second conjunct, no
lower bound on the date), and a record with no expiration date is never
counted (NaT compares false in pandas, third conjunct). -/
theorem c10_expiring_soon_count :
    (∀ (t : List Record) (today : Int),
      expiring_soon t today =
        (t.filter fun r =>
          match r.expiration with
          | some d => decide (d ≤ today + EXPIRY_ALERT_DAYS)
          | none => false).length) ∧
    (∀ (today : Int) (r : Record) (d : Int),
      r.expiration = some d → d ≤ today + EXPIRY_ALERT_DAYS →
        expiring_soon [r] today = 1) ∧
    (∀ (today : Int) (r : Record), r.expiration = none → expiring_soon [r] today = 0) := by
  refine ⟨?_, ?_, ?_⟩
  · intro t today
    have hconv : (fun r : Record =>
        match r.expiration with
        | some d => decide (d ≤ today + EXPIRY_ALERT_DAYS)
        | none => false) =
        fun r : Record => expComparedLe r.expiration (today + EXPIRY_ALERT_DAYS) := rfl
    rw [hconv]
    exact count_true_map_eq_filter_length (today + EXPIRY_ALERT_DAYS) t
  · intro today r d hd hle
    unfold expiring_soon
    simp [hd, expComparedLe, hle]
  · intro today r hd
    unfold expiring_soon
    simp [hd, expComparedLe]

/-- A record with no expiration date. -/
def recNoExp : Record :=
  { category := "Hardware", name := "Rack", expiration := none
    manufacturer := "LabCo", sku := "R", quantityInStock := 9
    reorderThreshold := 1, orderQuantity := 1, needReorder := false }

/-- Witness for c10_expiring_soon_count: recA (expires day 120) is counted
both with today = 100 (10 days ahead, within the horizon) and with
today = 500 (long past), and the record without a date is never counted. -/
theorem c10_expiring_soon_count_witness :
    expiring_soon [recA] 100 = 1 ∧
    expiring_soon [recA] 500 = 1 ∧
    expiring_soon [recNoExp] 100 = 0 :=
  ⟨c10_expiring_soon_count.2.1 100 recA 120 rfl (by decide),
   c10_expiring_soon_count.2.1 500 recA 120 rfl (by decide),
   c10_expiring_soon_count.2.2 100 recNoExp rfl⟩
